import Mathlib

/-
Verification of the ESPTools interrupt-debouncing core.

The development shallowly embeds the C++ sources:
  gpio_state.h — the three-valued GpioState type with inversion and negation;
  interrupt.cpp / interrupt.h — the per-source debounce finite-state machine
  (StateChanger, FsmTransition, FsmReset, ProcessInterrupt, Debouncer), the
  source registry (FindFreeId, AssignIdStoreInMapsAndCreateDaemonTask,
  FreeIdUnmapAndDeleteDaemonTask), the ISR-to-daemon notification hand-off
  (InterruptHandler, DaemonTask), and the consumer-facing counters
  (PendingInterrupts, RedundantInterrupts).

Stateful C++ is translated to explicit state passing; FreeRTOS aborts
(assert failures) are modelled with Except; machine integers are Nat with
explicit remarks where wrap-around cannot occur.
-/

namespace ESPTools

/-- Embedding of enum GpioState.Value: the three-valued GPIO state
Undefined, Low, High from gpio_state.h. -/
inductive GpioState where
  | Undefined : GpioState
  | Low : GpioState
  | High : GpioState
deriving DecidableEq, Repr

/-- Embedding of GpioState.operator!: Low maps to High, High maps to Low,
Undefined stays Undefined. -/
def GpioState.neg : GpioState → GpioState
  | .Low => .High
  | .High => .Low
  | .Undefined => .Undefined

/-- Embedding of the GpioState conversion constructor
GpioState(state, inverse_logic). The C++ computes
inverse_logic ? Value(not bool(state)) : Value(bool(state)), where
bool(state) is state != 0, Value(0) = Low and Value(1) = High. The input
level (as returned by gpio_get_level) is modelled as a Nat. -/
def GpioState.ofLevel (state : Nat) (inverse_logic : Bool) : GpioState :=
  if inverse_logic then
    (if state ≠ 0 then GpioState.Low else GpioState.High)
  else
    (if state ≠ 0 then GpioState.High else GpioState.Low)

/-- State of one Interrupt object, from the private members of interrupt.h:
raw_state_, fsm_state_, the count of interrupt_counting_semaphore_
(pending_count), the single-shot change_state_timer_ (armed flag plus its
currently configured period in ticks), and the two debounce durations
low_to_high_time_ticks_ (GoHighTime) and high_to_low_time_ticks_
(GoLowTime). -/
structure InterruptState where
  raw_state : GpioState
  fsm_state : GpioState
  pending_count : Nat
  timer_armed : Bool
  timer_period : Nat
  low_to_high_time_ticks : Nat
  high_to_low_time_ticks : Nat
deriving DecidableEq, Repr

/-- A freshly constructed Interrupt object: raw and fsm state Undefined,
counting semaphore at 0, timer created dormant with period portMAX_DELAY,
and the two caller-chosen debounce durations. -/
def freshSource (low_to_high high_to_low : Nat) : InterruptState :=
  { raw_state := GpioState.Undefined
    fsm_state := GpioState.Undefined
    pending_count := 0
    timer_armed := false
    timer_period := 4294967295
    low_to_high_time_ticks := low_to_high
    high_to_low_time_ticks := high_to_low }

namespace Interrupt

/-- Embedding of Interrupt.StateChanger: negate fsm_state_ and give the
interrupt counting semaphore (publish one settled event). -/
def StateChanger (s : InterruptState) : InterruptState :=
  { s with fsm_state := s.fsm_state.neg
           pending_count := s.pending_count + 1 }

/-- Embedding of Interrupt.FsmTransition: wait_time is GoHighTime when the
new state is High, GoLowTime otherwise; a nonzero wait_time arms (or
re-arms) the single-shot timer with that period via xTimerChangePeriod,
and a zero wait_time changes the state directly via StateChanger. -/
def FsmTransition (s : InterruptState) (new_state : GpioState) : InterruptState :=
  let wait_time :=
    if new_state = GpioState.High then s.low_to_high_time_ticks
    else s.high_to_low_time_ticks
  if wait_time ≠ 0 then
    { s with timer_armed := true, timer_period := wait_time }
  else
    StateChanger s

/-- Embedding of Interrupt.FsmReset: stop the timer via xTimerStop; nothing
else changes. -/
def FsmReset (s : InterruptState) (new_state : GpioState) : InterruptState :=
  { s with timer_armed := false }

/-- Embedding of Interrupt.ProcessInterrupt: on the first reading
(fsm_state_ Undefined) set fsm_state_ to the opposite of new_state and give
the counting semaphore; otherwise start the transition when fsm_state_
differs from new_state and reset it when they agree. -/
def ProcessInterrupt (s : InterruptState) (new_state : GpioState) : InterruptState :=
  if s.fsm_state = GpioState.Undefined then
    { s with fsm_state := new_state.neg
             pending_count := s.pending_count + 1 }
  else if s.fsm_state ≠ new_state then
    FsmTransition s new_state
  else
    FsmReset s new_state

/-- Embedding of Interrupt.TimerCallback firing on expiry of the one-shot
change_state_timer_: the timer disarms itself and StateChanger runs. -/
def TimerExpire (s : InterruptState) : InterruptState :=
  StateChanger { s with timer_armed := false }

end Interrupt

/-- State for dispatching to two Interrupt objects. The field
previous_state embeds the function-local variable
`static GpioState previous_state` inside Interrupt.Debouncer: in C++ a
function-local static in a non-static member function is one single
variable shared by every instance of the class, so it is global dispatch
state here, not a per-source field. Its initial value is the default
GpioState, Undefined. -/
structure DispatchState where
  previous_state : GpioState
  src0 : InterruptState
  src1 : InterruptState
deriving DecidableEq, Repr

/-- Dispatch state with the static at its initial Undefined value and two
freshly constructed sources. -/
def freshDispatch (d0r d0f d1r d1f : Nat) : DispatchState :=
  { previous_state := GpioState.Undefined
    src0 := freshSource d0r d0f
    src1 := freshSource d1r d1f }

namespace Interrupt

/-- Embedding of Interrupt.Debouncer invoked on source `which` (false =
src0, true = src1) with new_state: when the shared static previous_state
differs from new_state, the static is updated and ProcessInterrupt runs on
that source; otherwise the dispatch is a no-op (logged as a repeated
interrupt). -/
def Debouncer (g : DispatchState) (which : Bool) (new_state : GpioState) : DispatchState :=
  if g.previous_state ≠ new_state then
    if which then
      { g with previous_state := new_state
               src1 := ProcessInterrupt g.src1 new_state }
    else
      { g with previous_state := new_state
               src0 := ProcessInterrupt g.src0 new_state }
  else
    g

/-- Embedding of Interrupt.PendingInterrupts: the current count of the
interrupt counting semaphore. -/
def PendingInterrupts (s : InterruptState) : Nat :=
  s.pending_count

/-- Embedding of Interrupt.RedundantInterrupts:
pending_interrupts - (pending_interrupts % 2) in UBaseType_t arithmetic;
since k % 2 ≤ k the unsigned subtraction never wraps, so Nat subtraction
is exact. -/
def RedundantInterrupts (s : InterruptState) : Nat :=
  PendingInterrupts s - PendingInterrupts s % 2

end Interrupt

/-- One per-source occurrence that touches the counting semaphore: settle
is the publication of one settled event (by the first-reading branch of
ProcessInterrupt or by timer expiry), consume is one successful semaphore
take by a consumer (WaitForSingleInterrupt). -/
inductive SourceEvent where
  | settle : SourceEvent
  | consume : SourceEvent
deriving DecidableEq, Repr

/-- Apply one event to a source. The first settle of a fresh source goes
through ProcessInterrupt with the first raw reading r0 (its
fsm_state = Undefined branch); every later settle is a timer expiry. A
consume is one semaphore take, which in FreeRTOS only succeeds when the
count is positive. -/
def applyEvent (r0 : GpioState) (s : InterruptState) : SourceEvent → InterruptState
  | SourceEvent.settle =>
    if s.fsm_state = GpioState.Undefined then Interrupt.ProcessInterrupt s r0
    else Interrupt.TimerExpire s
  | SourceEvent.consume => { s with pending_count := s.pending_count - 1 }

/-- Run a list of events left to right from state s. -/
def runEvents (r0 : GpioState) (s : InterruptState) : List SourceEvent → InterruptState
  | [] => s
  | e :: rest => runEvents r0 (applyEvent r0 s e) rest

/-- An event list is admissible from balance bal when no consume occurs
while the semaphore count is zero (a FreeRTOS counting-semaphore take
blocks rather than going negative). -/
def admissibleFrom : Nat → List SourceEvent → Bool
  | _, [] => true
  | bal, SourceEvent.settle :: rest => admissibleFrom (bal + 1) rest
  | bal, SourceEvent.consume :: rest => decide (0 < bal) && admissibleFrom (bal - 1) rest

/-- Number of settle events in a list. -/
def settleCount : List SourceEvent → Nat
  | [] => 0
  | SourceEvent.settle :: rest => settleCount rest + 1
  | SourceEvent.consume :: rest => settleCount rest

/-- Number of consume events in a list. -/
def consumeCount : List SourceEvent → Nat
  | [] => 0
  | SourceEvent.settle :: rest => consumeCount rest
  | SourceEvent.consume :: rest => consumeCount rest + 1

/-- The value of fsm_state after the (n+1)-th settled event of a source
whose first raw reading was r0: the first settled value is the negation of
r0, and each later settled value is the negation of the one before. -/
def settledAfter (r0 : GpioState) : Nat → GpioState
  | 0 => r0.neg
  | n + 1 => (settledAfter r0 n).neg

/-- MAX_INTERRUPTS from interrupt.cpp: at most 32 filtered interrupts. -/
def MAX_INTERRUPTS : Nat := 32

/-- The registry globals of interrupt.cpp: gpio_to_id_map as an
association list from GPIO number to slot id, and the
std::bitset<MAX_INTERRUPTS> used_ids as a bitmask. The mirror map
id_to_interrupt_map holds the same ids as values of gpio_to_id_map, so it
is not duplicated here. -/
structure RegistryState where
  gpio_to_id_map : List (Nat × Nat)
  used_ids : Nat
deriving DecidableEq, Repr

/-- The registry before any source is constructed: both containers empty. -/
def emptyRegistry : RegistryState :=
  { gpio_to_id_map := [], used_ids := 0 }

/-- Lookup in an association list, as unordered_map find: the value stored
at key k, if any. -/
def mapLookup (m : List (Nat × Nat)) (k : Nat) : Option Nat :=
  (m.find? (fun kv => kv.1 = k)).map (fun kv => kv.2)

/-- Assignment m[k] = v on an unordered_map: replace the value when the
key is present, insert the pair otherwise. -/
def mapInsert (m : List (Nat × Nat)) (k v : Nat) : List (Nat × Nat) :=
  if m.any (fun kv => kv.1 = k) then
    m.map (fun kv => if kv.1 = k then (k, v) else kv)
  else
    m ++ [(k, v)]

/-- Test used_ids.all(): every one of the MAX_INTERRUPTS bits is set. -/
def bitsetAll (u : Nat) : Bool :=
  (List.range MAX_INTERRUPTS).all (fun i => u.testBit i)

/-- Test used_ids.none(): no bit is set. -/
def bitsetNone (u : Nat) : Bool :=
  (List.range MAX_INTERRUPTS).all (fun i => !u.testBit i)

/-- Embedding of the first loop of FindFreeId: for each pair in
gpio_to_id_map, set the corresponding bit of used_ids. In every state
evaluated below the stored ids are < 32, so the out-of-range behaviour of
std::bitset::set never comes into play. -/
def markUsed (u : Nat) (m : List (Nat × Nat)) : Nat :=
  m.foldl (fun acc kv => acc ||| (1 <<< kv.2)) u

/-- Embedding of FindFreeId from interrupt.cpp: first mark every id
present in gpio_to_id_map as used in the global used_ids bitset (a
side effect on the global that persists), then return the lowest id
whose bit is clear, or MAX_INTERRUPTS when none is. -/
def FindFreeId (r : RegistryState) : Nat × RegistryState :=
  let u := markUsed r.used_ids r.gpio_to_id_map
  let id := ((List.range MAX_INTERRUPTS).find? (fun i => !u.testBit i)).getD MAX_INTERRUPTS
  (id, { r with used_ids := u })

namespace Interrupt

/-- Embedding of Interrupt.AssignIdStoreInMapsAndCreateDaemonTask for a
source on GPIO `gpio`, under the global mutex: first the guard
assert(!used_ids.all()) is evaluated on the current used_ids (an abort is
Except.error), then FindFreeId runs (marking used_ids from the map as a
side effect) and the returned id is stored in gpio_to_id_map (and, in the
C++, this object in id_to_interrupt_map under the same id). Daemon-task
creation has no effect on the registry containers and is not modelled. -/
def AssignIdStoreInMapsAndCreateDaemonTask (r : RegistryState) (gpio : Nat) :
    Except Unit RegistryState :=
  if bitsetAll r.used_ids then
    Except.error ()
  else
    let (id, r2) := FindFreeId r
    Except.ok { r2 with gpio_to_id_map := mapInsert r2.gpio_to_id_map gpio id }

/-- Embedding of Interrupt.FreeIdUnmapAndDeleteDaemonTask: after taking
the global mutex the body is the placeholder assert(false) — an
unconditional abort before any mapping is removed or any bit is cleared —
so every unregistration is Except.error. -/
def FreeIdUnmapAndDeleteDaemonTask (r : RegistryState) (gpio : Nat) :
    Except Unit RegistryState :=
  Except.error ()

end Interrupt

/-- Register sources on GPIOs 0, 1, ..., n-1 in order, starting from the
empty registry, stopping at the first abort. -/
def registerN (n : Nat) : Except Unit RegistryState :=
  (List.range n).foldlM (fun r g => Interrupt.AssignIdStoreInMapsAndCreateDaemonTask r g)
    emptyRegistry

/-- System state for the ISR-to-daemon hand-off of interrupt.cpp with two
registered sources (slot ids 0 and 1): the task notification word of the
daemon, availability of global_vars_mutex, the raw_state_ of each source,
the local bitset notify_value the daemon is currently walking, and the
list of Debouncer invocations the daemon has made, each recording the slot
and the raw state read at dispatch time (most recent first). -/
structure IsrSystem where
  notify_word : Nat
  mutex_free : Bool
  raw0 : GpioState
  raw1 : GpioState
  daemon_pending : Nat
  observed : List (Nat × GpioState)
deriving DecidableEq, Repr

/-- The system just after both sources are registered and before any
edge: empty notification word, mutex free, raw states Undefined. -/
def isrInit : IsrSystem :=
  { notify_word := 0
    mutex_free := true
    raw0 := GpioState.Undefined
    raw1 := GpioState.Undefined
    daemon_pending := 0
    observed := [] }

/-- One atomic step of the system. isr which level is a run of
InterruptHandler for the source in slot 1 (which = true) or slot 0, with
the GPIO reading level; wake is the return of
ulTaskNotifyTake(pdTRUE, portMAX_DELAY) in DaemonTask; lookupBegin is the
daemon taking global_vars_mutex before reading id_to_interrupt_map for
the lowest pending slot; lookupEnd which is the daemon releasing the
mutex and calling Debouncer on that slot with its current raw state. -/
inductive SysStep where
  | isr : Bool → Nat → SysStep
  | wake : SysStep
  | lookupBegin : SysStep
  | lookupEnd : Bool → SysStep
deriving DecidableEq, Repr

/-- Transition function of the hand-off system, following interrupt.cpp.
InterruptHandler always stores the (non-inverted) raw state, but it sends
the task notification — the OR of this slot's bit into the notification
word via xTaskNotifyFromISR with eSetBits — only inside
if (xSemaphoreTakeFromISR(global_vars_mutex, ...)): when the mutex is held
by a task, the take fails and the handler falls through without notifying.
The wake step is the atomic read-and-clear of the notification word.
lookupEnd records the Debouncer invocation and clears the slot's bit in
the local notify_value copy. Both sources use inverse_logic = false. -/
def sysStep (st : IsrSystem) : SysStep → IsrSystem
  | SysStep.isr which level =>
    let st := if which then { st with raw1 := GpioState.ofLevel level false }
              else { st with raw0 := GpioState.ofLevel level false }
    if st.mutex_free then
      { st with notify_word := st.notify_word ||| (1 <<< (if which then 1 else 0)) }
    else
      st
  | SysStep.wake =>
    { st with daemon_pending := st.notify_word, notify_word := 0 }
  | SysStep.lookupBegin =>
    { st with mutex_free := false }
  | SysStep.lookupEnd which =>
    { st with mutex_free := true
              observed := (if which then (1, st.raw1) else (0, st.raw0)) :: st.observed
              daemon_pending := st.daemon_pending &&& (if which then 1 else 2) }

/-- Run a list of steps left to right. -/
def sysRun (st : IsrSystem) : List SysStep → IsrSystem
  | [] => st
  | stp :: rest => sysRun (sysStep st stp) rest

/-- The value of fsm_state after n settled events of a source whose first
raw reading was r0: Undefined while no event has been published, and the
alternating sequence settledAfter afterwards. -/
def fsmAfter (r0 : GpioState) (n : Nat) : GpioState :=
  if n = 0 then GpioState.Undefined else settledAfter r0 (n - 1)

/-- C10: for every input level and every inverse_logic flag the GpioState
conversion constructor yields only Low or High, never Undefined, and the
result with inverse_logic = true is the operator! negation of the result
built from the same level with inverse_logic = false. -/
theorem C10_conversion_total_and_inverts (state : Nat) (inverse_logic : Bool) :
    GpioState.ofLevel state inverse_logic ≠ GpioState.Undefined ∧
    GpioState.ofLevel state true = (GpioState.ofLevel state false).neg := by
  by_cases h : state = 0 <;> cases inverse_logic <;>
    simp [GpioState.ofLevel, GpioState.neg, h]

/-- C2: on a source whose fsm_state is Undefined, ProcessInterrupt sets
fsm_state to the negation of the new raw state and increments
pending_count by exactly one, with every other field — in particular the
timer — unchanged. -/
theorem C2_first_reading (s : InterruptState) (new_state : GpioState)
    (h : s.fsm_state = GpioState.Undefined) :
    Interrupt.ProcessInterrupt s new_state =
      { s with fsm_state := new_state.neg
               pending_count := s.pending_count + 1 } := by
  simp [Interrupt.ProcessInterrupt, h]

/-- Witness for C2 at a concrete fresh source and raw reading High. -/
theorem C2_first_reading_witness :
    (freshSource 3 4).fsm_state = GpioState.Undefined ∧
    Interrupt.ProcessInterrupt (freshSource 3 4) GpioState.High =
      { freshSource 3 4 with
          fsm_state := GpioState.High.neg
          pending_count := (freshSource 3 4).pending_count + 1 } :=
  ⟨rfl, C2_first_reading (freshSource 3 4) GpioState.High rfl⟩

/-- C3: on a source settled at Low or High, processing a different raw
state arms (re-arms) the single-shot timer with low_to_high_time_ticks
when the new state is High and high_to_low_time_ticks when it is Low;
when that delay is zero no timer is armed and the state flip plus one
pending_count increment happen immediately. -/
theorem C3_transition_arms_timer (s : InterruptState) (new_state : GpioState)
    (hfsm : s.fsm_state = GpioState.Low ∨ s.fsm_state = GpioState.High)
    (hnew : new_state = GpioState.Low ∨ new_state = GpioState.High)
    (hne : s.fsm_state ≠ new_state) :
    ((if new_state = GpioState.High then s.low_to_high_time_ticks
      else s.high_to_low_time_ticks) ≠ 0 →
      Interrupt.ProcessInterrupt s new_state =
        { s with timer_armed := true
                 timer_period :=
                   if new_state = GpioState.High then s.low_to_high_time_ticks
                   else s.high_to_low_time_ticks }) ∧
    ((if new_state = GpioState.High then s.low_to_high_time_ticks
      else s.high_to_low_time_ticks) = 0 →
      Interrupt.ProcessInterrupt s new_state =
        { s with fsm_state := s.fsm_state.neg
                 pending_count := s.pending_count + 1 }) := by
  rcases hfsm with h | h <;> rcases hnew with h2 | h2 <;>
    first
    | exact absurd (h.trans h2.symm) hne
    | (constructor <;> intro hd <;> simp [h2] at hd <;>
        simp [Interrupt.ProcessInterrupt, Interrupt.FsmTransition,
              Interrupt.StateChanger, h, h2, hd])

/-- Witness for C3: a source settled Low sees High with a nonzero rise
delay, arming the timer with that delay. -/
theorem C3_transition_arms_timer_witness :
    ({ freshSource 5 7 with fsm_state := GpioState.Low } : InterruptState).fsm_state
        = GpioState.Low ∧
    Interrupt.ProcessInterrupt { freshSource 5 7 with fsm_state := GpioState.Low }
        GpioState.High =
      { { freshSource 5 7 with fsm_state := GpioState.Low } with
          timer_armed := true, timer_period := 5 } := by
  refine ⟨rfl, ?_⟩
  simpa using
    (C3_transition_arms_timer { freshSource 5 7 with fsm_state := GpioState.Low }
      GpioState.High (Or.inl rfl) (Or.inr rfl) (by decide)).1 (by decide)

/-- C4: on a source settled at Low or High, processing a raw state equal
to fsm_state stops the timer and changes nothing else: fsm_state,
pending_count and all remaining fields keep their values. -/
theorem C4_bounce_back_frame (s : InterruptState) (new_state : GpioState)
    (hfsm : s.fsm_state = GpioState.Low ∨ s.fsm_state = GpioState.High)
    (heq : s.fsm_state = new_state) :
    Interrupt.ProcessInterrupt s new_state = { s with timer_armed := false } := by
  rcases hfsm with h | h <;>
    simp [Interrupt.ProcessInterrupt, Interrupt.FsmReset, heq ▸ h, ← heq, h]

/-- Witness for C4: a source settled High with an armed timer sees High
again; only the timer is stopped. -/
theorem C4_bounce_back_frame_witness :
    ({ freshSource 5 7 with fsm_state := GpioState.High, timer_armed := true }
        : InterruptState).fsm_state = GpioState.High ∧
    Interrupt.ProcessInterrupt
        { freshSource 5 7 with fsm_state := GpioState.High, timer_armed := true }
        GpioState.High =
      { { freshSource 5 7 with fsm_state := GpioState.High, timer_armed := true } with
          timer_armed := false } :=
  ⟨rfl, C4_bounce_back_frame
      { freshSource 5 7 with fsm_state := GpioState.High, timer_armed := true }
      GpioState.High (Or.inr rfl) rfl⟩

/-- C8: RedundantInterrupts returns pending - (pending mod 2); the result
is even, never exceeds the pending count, and is a natural number (the
unsigned subtraction cannot wrap since pending mod 2 is at most pending). -/
theorem C8_redundant_count (s : InterruptState) :
    Interrupt.RedundantInterrupts s
        = Interrupt.PendingInterrupts s - Interrupt.PendingInterrupts s % 2 ∧
    Interrupt.RedundantInterrupts s % 2 = 0 ∧
    Interrupt.RedundantInterrupts s ≤ Interrupt.PendingInterrupts s := by
  unfold Interrupt.RedundantInterrupts Interrupt.PendingInterrupts
  refine ⟨rfl, ?_, Nat.sub_le _ _⟩
  omega

/-- C1: the de-duplication state of Debouncer is the function-local static
previous_state, one variable shared by all Interrupt instances, so it is
not per-source. Evaluating the code: after fresh source 0 is dispatched
with raw state High, dispatching fresh source 1 with High is skipped —
source 1 is returned completely unchanged, its fsm_state still Undefined
and pending_count 0 — even though source 1 never reported any raw state on
a prior dispatch; had its ProcessInterrupt run (as the claim requires for
a first reading), it would have published one settled event. -/
theorem C1_dedup_state_is_shared :
    (Interrupt.Debouncer (Interrupt.Debouncer (freshDispatch 5 5 5 5) false GpioState.High)
        true GpioState.High).src1 = (freshDispatch 5 5 5 5).src1 ∧
    (freshDispatch 5 5 5 5).src1.fsm_state = GpioState.Undefined ∧
    (freshDispatch 5 5 5 5).src1.pending_count = 0 ∧
    (Interrupt.ProcessInterrupt (freshDispatch 5 5 5 5).src1 GpioState.High).pending_count
        = 1 := by
  decide

/-- C6: evaluating the registration path at the capacity boundary. After
32 registrations every slot 0..31 is taken, yet the 33rd registration does
not abort: assert(!used_ids.all()) is evaluated before FindFreeId marks
the bitset from gpio_to_id_map, so used_ids still has bit 31 clear and the
guard passes; FindFreeId then finds no free id and returns MAX_INTERRUPTS,
and the out-of-range slot id 32 is stored in the maps. The first 32
registrations do receive the lowest free ids 0..31. -/
theorem C6_thirtythird_registration_not_fatal :
    (registerN 32).toOption.map
        (fun r => (List.range 32).map (fun g => mapLookup r.gpio_to_id_map g))
      = some ((List.range 32).map (fun i => some i)) ∧
    (registerN 33).toOption.isSome = true ∧
    (registerN 33).toOption.map (fun r => mapLookup r.gpio_to_id_map 32)
      = some (some MAX_INTERRUPTS) := by
  refine ⟨by decide, by decide, by decide⟩

/-- C7: evaluating FreeIdUnmapAndDeleteDaemonTask: for every registry
state and every GPIO the call aborts — the body is the unconditional
assert(false) — so no unregistration of a live source ever succeeds, no
mapping is removed and no slot id is ever freed for reuse. -/
theorem C7_unregister_always_aborts (r : RegistryState) (gpio : Nat) :
    Interrupt.FreeIdUnmapAndDeleteDaemonTask r gpio = Except.error () :=
  rfl

/-- C9: evaluating the hand-off at a concrete interleaving. An edge on
slot 0 notifies the daemon; the daemon wakes (read-and-clear) and takes
the registry mutex for its map lookup; while the mutex is held an edge on
slot 1 fires — InterruptHandler stores raw_state High but
xSemaphoreTakeFromISR fails, so the slot-1 bit is never ORed into the
notification word; the daemon finishes slot 0 and blocks again. In the
final state the notification word and the local pending set are 0 and the
only Debouncer invocation is for slot 0, so the raw level High captured
for slot 1 is never observed by the FSM: the notification was lost. -/
theorem C9_capture_during_lookup_is_lost :
    sysRun isrInit
        [SysStep.isr false 1, SysStep.wake, SysStep.lookupBegin,
         SysStep.isr true 1, SysStep.lookupEnd false] =
      { notify_word := 0
        mutex_free := true
        raw0 := GpioState.High
        raw1 := GpioState.High
        daemon_pending := 0
        observed := [(0, GpioState.High)] } ∧
    (sysRun isrInit
        [SysStep.isr false 1, SysStep.wake, SysStep.lookupBegin,
         SysStep.isr true 1, SysStep.lookupEnd false]).observed.all
      (fun p => p.1 ≠ 1) = true := by
  decide

/-- Helper: from a first reading of Low or High, every settled value is
Low or High (never Undefined). -/
theorem settledAfter_low_or_high (r0 : GpioState)
    (hr0 : r0 = GpioState.Low ∨ r0 = GpioState.High) (n : Nat) :
    settledAfter r0 n = GpioState.Low ∨ settledAfter r0 n = GpioState.High := by
  induction n with
  | zero => rcases hr0 with h | h <;> simp [settledAfter, h, GpioState.neg]
  | succ k ih => rcases ih with h | h <;> simp [settledAfter, h, GpioState.neg]

/-- Helper invariant for the parity law: running any admissible event list
from a source whose fsm_state is the value reached after n settled events
lands on the value reached after n plus the settles of the list, and the
semaphore count plus the consumes of the list equals the old count plus
the settles of the list. -/
theorem runEvents_invariant (r0 : GpioState)
    (hr0 : r0 = GpioState.Low ∨ r0 = GpioState.High) :
    ∀ (evs : List SourceEvent) (s : InterruptState) (n : Nat),
      s.fsm_state = fsmAfter r0 n →
      admissibleFrom s.pending_count evs = true →
      (runEvents r0 s evs).fsm_state = fsmAfter r0 (n + settleCount evs) ∧
      (runEvents r0 s evs).pending_count + consumeCount evs
        = s.pending_count + settleCount evs := by
  intro evs
  induction evs with
  | nil =>
    intro s n hf _
    simp [runEvents, settleCount, consumeCount, hf]
  | cons e rest ih =>
    intro s n hf hadm
    cases e with
    | settle =>
      have hadm2 : admissibleFrom (s.pending_count + 1) rest = true := hadm
      by_cases hn : n = 0
      · subst hn
        have hfs : s.fsm_state = GpioState.Undefined := by
          simpa [fsmAfter] using hf
        have happ : applyEvent r0 s SourceEvent.settle =
            { s with fsm_state := r0.neg, pending_count := s.pending_count + 1 } := by
          simp [applyEvent, hfs, Interrupt.ProcessInterrupt]
        have hrec := ih { s with fsm_state := r0.neg
                                 pending_count := s.pending_count + 1 } 1
          (by simp [fsmAfter, settledAfter]) hadm2
        have hnum : 1 + settleCount rest = 0 + (settleCount rest + 1) := by omega
        constructor
        · show (runEvents r0 (applyEvent r0 s SourceEvent.settle) rest).fsm_state = _
          rw [happ, settleCount, ← hnum]
          exact hrec.1
        · show (runEvents r0 (applyEvent r0 s SourceEvent.settle) rest).pending_count
              + consumeCount (SourceEvent.settle :: rest) = _
          rw [happ, consumeCount, settleCount]
          have h2 := hrec.2
          simp at h2
          omega
      · obtain ⟨k, rfl⟩ : ∃ k, n = k + 1 := ⟨n - 1, by omega⟩
        have hfs : s.fsm_state = settledAfter r0 k := by
          simpa [fsmAfter] using hf
        have hne : s.fsm_state ≠ GpioState.Undefined := by
          rcases settledAfter_low_or_high r0 hr0 k with h | h <;>
            simp [hfs, h]
        have happ : applyEvent r0 s SourceEvent.settle =
            { s with timer_armed := false
                     fsm_state := s.fsm_state.neg
                     pending_count := s.pending_count + 1 } := by
          simp [applyEvent, hne, Interrupt.TimerExpire, Interrupt.StateChanger]
        have hrec := ih { s with timer_armed := false
                                 fsm_state := s.fsm_state.neg
                                 pending_count := s.pending_count + 1 } (k + 2)
          (by simp [fsmAfter, hfs, settledAfter]) hadm2
        have hnum : k + 2 + settleCount rest = k + 1 + (settleCount rest + 1) := by omega
        constructor
        · show (runEvents r0 (applyEvent r0 s SourceEvent.settle) rest).fsm_state = _
          rw [happ, settleCount, ← hnum]
          exact hrec.1
        · show (runEvents r0 (applyEvent r0 s SourceEvent.settle) rest).pending_count
              + consumeCount (SourceEvent.settle :: rest) = _
          rw [happ, consumeCount, settleCount]
          have h2 := hrec.2
          simp at h2
          omega
    | consume =>
      have hadm2 : 0 < s.pending_count ∧
          admissibleFrom (s.pending_count - 1) rest = true := by
        simpa [admissibleFrom] using hadm
      have happ : applyEvent r0 s SourceEvent.consume =
          { s with pending_count := s.pending_count - 1 } := rfl
      have hrec := ih { s with pending_count := s.pending_count - 1 } n hf hadm2.2
      constructor
      · show (runEvents r0 (applyEvent r0 s SourceEvent.consume) rest).fsm_state = _
        rw [happ, settleCount]
        exact hrec.1
      · show (runEvents r0 (applyEvent r0 s SourceEvent.consume) rest).pending_count
            + consumeCount (SourceEvent.consume :: rest) = _
        rw [happ, consumeCount, settleCount]
        have h2 := hrec.2
        simp at h2
        have := hadm2.1
        omega

/-- Helper: every branch of ProcessInterrupt either leaves fsm_state
unchanged or publishes exactly one settled event. -/
theorem processInterrupt_change_publishes (t : InterruptState) (new_state : GpioState) :
    (Interrupt.ProcessInterrupt t new_state).fsm_state = t.fsm_state ∨
    (Interrupt.ProcessInterrupt t new_state).pending_count = t.pending_count + 1 := by
  cases ht : t.fsm_state <;> cases hn : new_state <;>
    by_cases h3 : t.low_to_high_time_ticks = 0 <;>
    by_cases h4 : t.high_to_low_time_ticks = 0 <;>
    simp [Interrupt.ProcessInterrupt, Interrupt.FsmTransition, Interrupt.FsmReset,
          Interrupt.StateChanger, ht, h3, h4]

/-- C5: from a fresh source whose first raw reading is r0 (Low or High),
after any admissible interleaving of settled-event publications and
consumer takes, (1) the semaphore count plus the consumed events equals
the number N of settled events, (2) fsm_state is the N-th element of the
settled sequence (Undefined while N = 0), (3) that sequence starts at the
negation of r0, (4) alternates by negation, (5) stays within Low/High, and
(6)(7) fsm_state changes only where a settled event is published:
every ProcessInterrupt branch either keeps fsm_state or increments the
count, and timer expiry (StateChanger) negates fsm_state while publishing
exactly one event. -/
theorem C5_parity_law (r0 : GpioState) (evs : List SourceEvent) (rise fall : Nat)
    (hr0 : r0 = GpioState.Low ∨ r0 = GpioState.High)
    (hadm : admissibleFrom 0 evs = true) :
    (runEvents r0 (freshSource rise fall) evs).pending_count + consumeCount evs
      = settleCount evs ∧
    (runEvents r0 (freshSource rise fall) evs).fsm_state
      = fsmAfter r0 (settleCount evs) ∧
    settledAfter r0 0 = r0.neg ∧
    (∀ k, settledAfter r0 (k + 1) = (settledAfter r0 k).neg) ∧
    (∀ k, settledAfter r0 k = GpioState.Low ∨ settledAfter r0 k = GpioState.High) ∧
    (∀ t new_state,
      (Interrupt.ProcessInterrupt t new_state).fsm_state = t.fsm_state ∨
      (Interrupt.ProcessInterrupt t new_state).pending_count = t.pending_count + 1) ∧
    (∀ t, (Interrupt.StateChanger t).fsm_state = t.fsm_state.neg ∧
      (Interrupt.StateChanger t).pending_count = t.pending_count + 1) := by
  have hinv := runEvents_invariant r0 hr0 evs (freshSource rise fall) 0
    (by simp [freshSource, fsmAfter]) (by simpa [freshSource] using hadm)
  refine ⟨by have := hinv.2; simpa [freshSource] using this,
          by simpa using hinv.1,
          rfl,
          fun k => rfl,
          settledAfter_low_or_high r0 hr0,
          processInterrupt_change_publishes,
          fun t => ⟨rfl, rfl⟩⟩

/-- Witness for C5 at r0 = Low and the event list settle, settle,
consume, settle. -/
theorem C5_parity_law_witness :
    (GpioState.Low = GpioState.Low ∨ GpioState.Low = GpioState.High) ∧
    admissibleFrom 0
      [SourceEvent.settle, SourceEvent.settle, SourceEvent.consume, SourceEvent.settle]
      = true ∧
    (runEvents GpioState.Low (freshSource 0 0)
        [SourceEvent.settle, SourceEvent.settle, SourceEvent.consume,
         SourceEvent.settle]).pending_count
      + consumeCount
        [SourceEvent.settle, SourceEvent.settle, SourceEvent.consume, SourceEvent.settle]
      = settleCount
        [SourceEvent.settle, SourceEvent.settle, SourceEvent.consume, SourceEvent.settle] ∧
    (runEvents GpioState.Low (freshSource 0 0)
        [SourceEvent.settle, SourceEvent.settle, SourceEvent.consume,
         SourceEvent.settle]).fsm_state
      = fsmAfter GpioState.Low
        (settleCount
          [SourceEvent.settle, SourceEvent.settle, SourceEvent.consume,
           SourceEvent.settle]) :=
  ⟨Or.inl rfl, by decide,
   (C5_parity_law GpioState.Low
      [SourceEvent.settle, SourceEvent.settle, SourceEvent.consume, SourceEvent.settle]
      0 0 (Or.inl rfl) (by decide)).1,
   (C5_parity_law GpioState.Low
      [SourceEvent.settle, SourceEvent.settle, SourceEvent.consume, SourceEvent.settle]
      0 0 (Or.inl rfl) (by decide)).2.1⟩

end ESPTools
